import Mathlib

/-!
Verification development for the inboxhunter-agent repository.

This file gives a shallow embedding, in Lean 4, of the parts of the
Python code base that the verified properties talk about:

* `src/src/utils/resilience.py` — the `CircuitBreaker` class and the
  `retry_with_backoff` decorator;
* `src/src/automation/llm_models.py` — the `AgentActionResponse`
  pydantic model and `parse_agent_response`;
* `src/src/automation/agent_orchestrator.py` — `AgentState` and the
  reasoning loop of `AIAgentOrchestrator.execute_signup`;
* `src/src/captcha/solver.py` — `CaptchaSolver.detect_captcha_type`;
* `src/src/bot/orchestrator.py` — `ReverseOutreachBot._get_ads` and
  `_process_ad` together with a spec-modelled signup datastore;
* `src/src/api/websocket.py` — `PlatformWebSocket._send` and
  `_flush_queue`;
* `src/src/scrapers/meta_ads.py` — `MetaAdsScraper._is_valid_ad_url`
  and `_deduplicate_ads`.

Python strings are modelled as Lean `String`, Python floats (delays,
timestamps) as `ℚ`, dictionaries as structures with `Option` fields or
association lists, exceptions as `Except`/`Option` results, and the
effectful environment (LLM answers, page observations, wire sends,
random samples) as explicit oracle arguments, so every definition is
executable.
-/

/-! ### Python string helpers

`startsList` is `str.startswith`, `hasSubList`/`strHas` is the Python
`in` substring test, `pyLower` is `str.lower` (ASCII), `strCount` is
`str.count` of a single character. All work on the character list of
the string so that they evaluate inside the kernel.
-/

def startsList : List Char → List Char → Bool
  | [], _ => true
  | _ :: _, [] => false
  | a :: as, b :: bs => a == b && startsList as bs

def hasSubList (needle : List Char) : List Char → Bool
  | [] => startsList needle []
  | b :: bs => startsList needle (b :: bs) || hasSubList needle bs

/-- Python `sub in s` (substring containment). -/
def strHas (s sub : String) : Bool := hasSubList sub.data s.data

/-- Python `s.startswith(p)`. -/
def pyStartsWith (s p : String) : Bool := startsList p.data s.data

/-- Python `s.lower()` for the ASCII strings handled here. -/
def pyLower (s : String) : String := ⟨s.data.map Char.toLower⟩

/-- Python `s.count(c)` for a single character. -/
def strCount (s : String) (c : Char) : Nat := s.data.countP (· == c)

/-- Python `s[:n]`. -/
def pyTake (s : String) (n : Nat) : String := ⟨s.data.take n⟩

/-- Python `xs[-n:]` (the last at most `n` elements). -/
def takeLast (n : Nat) (l : List α) : List α := l.drop (l.length - n)

/-! ## `MetaAdsScraper._is_valid_ad_url` (src/src/scrapers/meta_ads.py, lines 415-470) -/

/-- The `exclude_domains` list of `_is_valid_ad_url`. -/
def exclude_domains : List String :=
  ["facebook.com", "fb.com", "instagram.com", "messenger.com", "meta.com",
   "fbcdn.net", "youtube.com", "youtu.be", "twitter.com", "linkedin.com",
   "tiktok.com"]

/-- The `exclude_paths` list of `_is_valid_ad_url`. -/
def exclude_paths : List String :=
  ["/terms", "/privacy", "/help", "/about", "/legal", "/support",
   "/ads-transparency"]

/-- `MetaAdsScraper._is_valid_ad_url`: reject empty / non-`http` URLs,
any URL whose lowercase form contains an excluded domain or path as a
substring, and any URL without a dot. -/
def is_valid_ad_url (url : String) : Bool :=
  if url = "" || !(pyStartsWith url "http") then false
  else
    let url_lower := pyLower url
    if exclude_domains.any (fun d => strHas url_lower d) then false
    else if exclude_paths.any (fun p => strHas url_lower p) then false
    else if strCount url '.' < 1 then false
    else true

/-! ## `MetaAdsScraper._deduplicate_ads` (src/src/scrapers/meta_ads.py, lines 472-491) -/

/-- One scraped ad record as far as deduplication is concerned: its
`url` (Python `ad.get("url", "")`, so a missing url is the empty
string) and a tag standing for the rest of the dictionary. -/
structure AdRec where
  url : String
  tag : Nat
deriving DecidableEq, Repr

/-- The loop of `_deduplicate_ads`, with `seen` playing the role of the
`seen_urls` set: a record is kept iff its url is truthy (non-empty) and
not seen before. -/
def deduplicate_ads_go (seen : List String) : List AdRec → List AdRec
  | [] => []
  | ad :: rest =>
    if ad.url ≠ "" ∧ ad.url ∉ seen then
      ad :: deduplicate_ads_go (ad.url :: seen) rest
    else deduplicate_ads_go seen rest

/-- `MetaAdsScraper._deduplicate_ads`. -/
def deduplicate_ads (ads : List AdRec) : List AdRec := deduplicate_ads_go [] ads

/-- Specification-side description of deduplication: keep the first
occurrence of each distinct non-empty url, deleting all later records
with the same url. -/
def dedupKeepFirstSpec : List AdRec → List AdRec
  | [] => []
  | a :: rest =>
    if a.url = "" then dedupKeepFirstSpec rest
    else a :: dedupKeepFirstSpec (rest.filter (fun b => b.url ≠ a.url))
termination_by l => l.length
decreasing_by
  all_goals simp [Nat.lt_succ_iff]
  exact List.length_filter_le _ _

theorem deduplicate_ads_go_eq (ads : List AdRec) :
    ∀ seen : List String,
      deduplicate_ads_go seen ads
        = dedupKeepFirstSpec (ads.filter (fun a => !(decide (a.url ∈ seen)))) := by
  induction ads with
  | nil => intro seen; simp [deduplicate_ads_go, dedupKeepFirstSpec]
  | cons a rest ih =>
    intro seen
    rw [List.filter_cons]
    by_cases hmem : a.url ∈ seen
    · have h1 : deduplicate_ads_go seen (a :: rest) = deduplicate_ads_go seen rest := by
        simp [deduplicate_ads_go, hmem]
      rw [h1, ih, if_neg (by simp [hmem])]
    · rw [if_pos (by simp [hmem])]
      by_cases hempty : a.url = ""
      · have h1 : deduplicate_ads_go seen (a :: rest) = deduplicate_ads_go seen rest := by
          simp [deduplicate_ads_go, hempty]
        have h2 : dedupKeepFirstSpec (a :: rest.filter (fun b => !(decide (b.url ∈ seen))))
            = dedupKeepFirstSpec (rest.filter (fun b => !(decide (b.url ∈ seen)))) := by
          simp [dedupKeepFirstSpec, hempty]
        rw [h1, ih, h2]
      · have h1 : deduplicate_ads_go seen (a :: rest)
            = a :: deduplicate_ads_go (a.url :: seen) rest := by
          simp [deduplicate_ads_go, hempty, hmem]
        have h2 : dedupKeepFirstSpec (a :: rest.filter (fun b => !(decide (b.url ∈ seen))))
            = a :: dedupKeepFirstSpec
                ((rest.filter (fun b => !(decide (b.url ∈ seen)))).filter
                  (fun b => decide (b.url ≠ a.url))) := by
          simp [dedupKeepFirstSpec, hempty]
        rw [h1, ih (a.url :: seen), h2, List.filter_filter]
        congr 2
        apply List.filter_congr
        intro b _
        by_cases h1 : b.url = a.url <;> by_cases h2 : b.url ∈ seen <;> simp [h1, h2]

/-- C9 (amended): `_deduplicate_ads` keeps exactly the first occurrence
of each distinct non-empty url, in input order; records whose url is
empty (missing) are dropped altogether. -/
theorem deduplicate_ads_keeps_first_occurrence (ads : List AdRec) :
    deduplicate_ads ads = dedupKeepFirstSpec ads := by
  rw [deduplicate_ads, deduplicate_ads_go_eq]
  congr 1
  simp

/-- C9 counterexample: a list of 5 records in which exactly 2 share the
same (non-empty) url deduplicates to 4 records, not 3 as claimed. -/
theorem deduplicate_ads_five_to_four :
    (([⟨"https://a.com", 0⟩, ⟨"https://b.com", 1⟩, ⟨"https://a.com", 2⟩,
       ⟨"https://c.com", 3⟩, ⟨"https://d.com", 4⟩] : List AdRec).length = 5)
    ∧ (([⟨"https://a.com", 0⟩, ⟨"https://b.com", 1⟩, ⟨"https://a.com", 2⟩,
         ⟨"https://c.com", 3⟩, ⟨"https://d.com", 4⟩] : List AdRec).map AdRec.url).count
        "https://a.com" = 2
    ∧ deduplicate_ads
        [⟨"https://a.com", 0⟩, ⟨"https://b.com", 1⟩, ⟨"https://a.com", 2⟩,
         ⟨"https://c.com", 3⟩, ⟨"https://d.com", 4⟩]
        = [⟨"https://a.com", 0⟩, ⟨"https://b.com", 1⟩,
           ⟨"https://c.com", 3⟩, ⟨"https://d.com", 4⟩]
    ∧ (deduplicate_ads
        [⟨"https://a.com", 0⟩, ⟨"https://b.com", 1⟩, ⟨"https://a.com", 2⟩,
         ⟨"https://c.com", 3⟩, ⟨"https://d.com", 4⟩]).length ≠ 3 := by
  decide

/-- C10: `_is_valid_ad_url` rejects a URL whenever it does not start
with "http", or any excluded domain or excluded path occurs as a
substring anywhere in the lowercased URL, or the URL has no dot. -/
theorem is_valid_ad_url_rejects (url : String)
    (h : pyStartsWith url "http" = false
      ∨ (∃ d ∈ exclude_domains, strHas (pyLower url) d = true)
      ∨ (∃ p ∈ exclude_paths, strHas (pyLower url) p = true)
      ∨ strCount url '.' = 0) :
    is_valid_ad_url url = false := by
  unfold is_valid_ad_url
  rcases h with h | ⟨d, hd, hs⟩ | ⟨p, hp, hs⟩ | h
  · simp [h]
  · have hd2 : exclude_domains.any (fun x => strHas (pyLower url) x) = true :=
      List.any_eq_true.mpr ⟨d, hd, hs⟩
    simp [hd2]
  · have hp2 : exclude_paths.any (fun x => strHas (pyLower url) x) = true :=
      List.any_eq_true.mpr ⟨p, hp, hs⟩
    simp [hp2]
  · simp [h]

/-- C10 witness: an external landing-page URL that merely mentions
"youtube.com" in its query string is rejected. -/
theorem is_valid_ad_url_rejects_witness :
    strHas (pyLower "https://example-landing.co/signup?src=youtube.com") "youtube.com" = true
    ∧ is_valid_ad_url "https://example-landing.co/signup?src=youtube.com" = false :=
  ⟨by decide,
   is_valid_ad_url_rejects _
     (Or.inr (Or.inl ⟨"youtube.com", by decide, by decide⟩))⟩

/-! ## `CircuitBreaker` (src/src/utils/resilience.py, lines 16-84) -/

/-- `CircuitBreaker.__init__` with its default parameters. `time.time()`
values are modelled as rationals passed explicitly to the two methods
that read the clock. -/
structure CircuitBreaker where
  failure_threshold : Nat := 5
  recovery_timeout : ℚ := 60
  half_open_max_calls : Nat := 3
  state : String := "closed"
  failure_count : Nat := 0
  last_failure_time : Option ℚ := none
  half_open_calls : Nat := 0
deriving Repr, DecidableEq

/-- `CircuitBreaker.can_execute` at wall-clock time `now`, returning the
result together with the possibly updated breaker. In the open state the
code reads `self.last_failure_time`, which is always set there (the only
transitions into "open" are in `record_failure`, which sets it); the
`getD 0` stands for that always-present value. -/
def can_execute (cb : CircuitBreaker) (now : ℚ) : Bool × CircuitBreaker :=
  if cb.state = "closed" then (true, cb)
  else if cb.state = "open" then
    if now - (cb.last_failure_time.getD 0) ≥ cb.recovery_timeout then
      (true, { cb with state := "half_open", half_open_calls := 0 })
    else (false, cb)
  else
    if cb.half_open_calls < cb.half_open_max_calls then (true, cb) else (false, cb)

/-- `CircuitBreaker.record_success`. -/
def record_success (cb : CircuitBreaker) : CircuitBreaker :=
  if cb.state = "half_open" then
    let cb2 := { cb with half_open_calls := cb.half_open_calls + 1 }
    if cb2.half_open_calls ≥ cb2.half_open_max_calls then
      { cb2 with state := "closed", failure_count := 0 }
    else cb2
  else { cb with failure_count := 0 }

/-- `CircuitBreaker.record_failure` at wall-clock time `now`. -/
def record_failure (cb : CircuitBreaker) (now : ℚ) : CircuitBreaker :=
  let cb2 := { cb with failure_count := cb.failure_count + 1,
                       last_failure_time := some now }
  if cb2.state = "half_open" then { cb2 with state := "open" }
  else if cb2.failure_count ≥ cb2.failure_threshold then { cb2 with state := "open" }
  else cb2

/-- `record_failure` folded over a list of failure times. -/
def record_failures (cb : CircuitBreaker) (ts : List ℚ) : CircuitBreaker :=
  ts.foldl record_failure cb

/-- C3: the circuit breaker's state machine on a default-configured
breaker. Four failures leave it closed; the fifth consecutive failure
opens it and `can_execute` then answers false while less than 60s have
elapsed since the last failure; once 60s have elapsed the next
`can_execute` answers true and flips the state to half_open; three
consecutive successes there close it again (two do not), while a
failure while half-open reopens it immediately. -/
theorem circuit_breaker_state_machine (t1 t2 t3 t4 t5 tEarly tLate tFail : ℚ)
    (hEarly : tEarly - t5 < 60) (hLate : tLate - t5 ≥ 60) :
    (record_failures {} [t1, t2, t3, t4]).state = "closed"
    ∧ (record_failures {} [t1, t2, t3, t4, t5]).state = "open"
    ∧ (can_execute (record_failures {} [t1, t2, t3, t4, t5]) tEarly).1 = false
    ∧ (can_execute (record_failures {} [t1, t2, t3, t4, t5]) tEarly).2.state = "open"
    ∧ (can_execute (record_failures {} [t1, t2, t3, t4, t5]) tLate).1 = true
    ∧ (can_execute (record_failures {} [t1, t2, t3, t4, t5]) tLate).2.state = "half_open"
    ∧ (record_success (record_success
        (can_execute (record_failures {} [t1, t2, t3, t4, t5]) tLate).2)).state
        = "half_open"
    ∧ (record_success (record_success (record_success
        (can_execute (record_failures {} [t1, t2, t3, t4, t5]) tLate).2))).state
        = "closed"
    ∧ (record_failure
        (can_execute (record_failures {} [t1, t2, t3, t4, t5]) tLate).2 tFail).state
        = "open" := by
  have hne1 : ("closed" : String) ≠ "half_open" := by decide
  have hne2 : ("open" : String) ≠ "closed" := by decide
  have hne3 : ("open" : String) ≠ "half_open" := by decide
  have hcb4 : record_failures {} [t1, t2, t3, t4]
      = { state := "closed", failure_count := 4, last_failure_time := some t4 } := by
    simp [record_failures, record_failure, hne1]
  have hcb5 : record_failures {} [t1, t2, t3, t4, t5]
      = { state := "open", failure_count := 5, last_failure_time := some t5 } := by
    simp [record_failures, record_failure, hne1]
  have hearly2 : ¬(tEarly - t5 ≥ 60) := by linarith
  have hce1 : can_execute { state := "open", failure_count := 5,
                            last_failure_time := some t5 } tEarly
      = (false, { state := "open", failure_count := 5, last_failure_time := some t5 }) := by
    simp [can_execute, hne2, hearly2]
  have hce2 : can_execute { state := "open", failure_count := 5,
                            last_failure_time := some t5 } tLate
      = (true, { state := "half_open", failure_count := 5,
                 last_failure_time := some t5, half_open_calls := 0 }) := by
    simp [can_execute, hne2, hLate]
  refine ⟨by rw [hcb4], by rw [hcb5], ?_, ?_, ?_, ?_, ?_, ?_, ?_⟩
  · rw [hcb5, hce1]
  · rw [hcb5, hce1]
  · rw [hcb5, hce2]
  · rw [hcb5, hce2]
  · rw [hcb5, hce2]
    simp [record_success]
  · rw [hcb5, hce2]
    simp [record_success]
  · rw [hcb5, hce2]
    simp [record_failure]

/-- C3 witness: the state-machine theorem instantiated with failures at
time 0, an early `can_execute` probe at time 0 and a late one at 60s. -/
theorem circuit_breaker_state_machine_witness :
    ((0 : ℚ) - 0 < 60) ∧ ((60 : ℚ) - 0 ≥ 60)
    ∧ ((record_failures {} [0, 0, 0, 0]).state = "closed"
    ∧ (record_failures {} [0, 0, 0, 0, 0]).state = "open"
    ∧ (can_execute (record_failures {} [0, 0, 0, 0, 0]) 0).1 = false
    ∧ (can_execute (record_failures {} [0, 0, 0, 0, 0]) 0).2.state = "open"
    ∧ (can_execute (record_failures {} [0, 0, 0, 0, 0]) 60).1 = true
    ∧ (can_execute (record_failures {} [0, 0, 0, 0, 0]) 60).2.state = "half_open"
    ∧ (record_success (record_success
        (can_execute (record_failures {} [0, 0, 0, 0, 0]) 60).2)).state = "half_open"
    ∧ (record_success (record_success (record_success
        (can_execute (record_failures {} [0, 0, 0, 0, 0]) 60).2))).state = "closed"
    ∧ (record_failure
        (can_execute (record_failures {} [0, 0, 0, 0, 0]) 60).2 61).state = "open") :=
  ⟨by norm_num, by norm_num,
   circuit_breaker_state_machine 0 0 0 0 0 0 60 61 (by norm_num) (by norm_num)⟩

/-! ## `retry_with_backoff` (src/src/utils/resilience.py, lines 87-176)

The decorated function is modelled as `f : Nat → Except E A`, giving the
outcome of its `n`-th invocation; `rand : Nat → ℚ` gives the
`random.random()` sample drawn after the `n`-th failed invocation. The
wrapper's observable behaviour is collected in a trace.
-/

/-- Observable trace of one run of a `retry_with_backoff` wrapper: the
number of invocations of the wrapped function, the back-off delays
before jitter, the delays actually slept (after jitter when enabled),
and the final outcome. -/
structure RetryTrace (E A : Type) where
  calls : Nat
  preDelays : List ℚ
  appliedDelays : List ℚ
  result : Except E A

/-- The jitter step of the wrapper: `delay * (0.5 + random.random())`,
with `r` the sample returned by `random.random()`. -/
def jitterDelay (delay r : ℚ) : ℚ := delay * (1 / 2 + r)

/-- The retry loop of `sync_wrapper`/`async_wrapper`: `attempt` is the
current loop index and `remaining` the number of retries still allowed
after the current invocation (`max_retries - attempt`). On an
exception at `attempt = max_retries` (`remaining = 0`) the exception is
re-raised; otherwise the wrapper sleeps
`min(base_delay * exponential_base ^ attempt, max_delay)`, jittered
when enabled, and retries. -/
def retry_go (E A : Type) (base_delay max_delay exponential_base : ℚ) (jitter : Bool)
    (rand : Nat → ℚ) (f : Nat → Except E A) : Nat → Nat → RetryTrace E A
  | attempt, 0 =>
    match f attempt with
    | .ok a => { calls := 1, preDelays := [], appliedDelays := [], result := .ok a }
    | .error e => { calls := 1, preDelays := [], appliedDelays := [], result := .error e }
  | attempt, r + 1 =>
    match f attempt with
    | .ok a => { calls := 1, preDelays := [], appliedDelays := [], result := .ok a }
    | .error _ =>
      let d := min (base_delay * exponential_base ^ attempt) max_delay
      let ad := if jitter then jitterDelay d (rand attempt) else d
      let rest := retry_go E A base_delay max_delay exponential_base jitter rand f
        (attempt + 1) r
      { calls := rest.calls + 1, preDelays := d :: rest.preDelays,
        appliedDelays := ad :: rest.appliedDelays, result := rest.result }

/-- `retry_with_backoff(...)` applied to a function: a full run of the
wrapper. The decorator's defaults are `max_retries = 3`,
`base_delay = 1.0`, `max_delay = 60.0`, `exponential_base = 2.0`,
`jitter = True`. -/
def retry_with_backoff (E A : Type) (max_retries : Nat)
    (base_delay max_delay exponential_base : ℚ) (jitter : Bool)
    (rand : Nat → ℚ) (f : Nat → Except E A) : RetryTrace E A :=
  retry_go E A base_delay max_delay exponential_base jitter rand f 0 max_retries

/-- C4: with `base_delay = 1.0`, `exponential_base = 2.0`,
`max_retries = 3` (and default `max_delay = 60`), a function that always
fails is invoked exactly 4 times, the pre-jitter delays between the
invocations are 1s, 2s, 4s, and the exception finally raised is the one
raised by the 4th invocation. -/
theorem retry_with_backoff_schedule (E A : Type) (f : Nat → Except E A)
    (rand : Nat → ℚ) (jitter : Bool)
    (hfail : ∀ n, ∃ e, f n = .error e) :
    (retry_with_backoff E A 3 1 60 2 jitter rand f).calls = 4
    ∧ (retry_with_backoff E A 3 1 60 2 jitter rand f).preDelays = [1, 2, 4]
    ∧ (retry_with_backoff E A 3 1 60 2 jitter rand f).result = f 3 := by
  obtain ⟨e0, h0⟩ := hfail 0
  obtain ⟨e1, h1⟩ := hfail 1
  obtain ⟨e2, h2⟩ := hfail 2
  obtain ⟨e3, h3⟩ := hfail 3
  unfold retry_with_backoff
  simp [retry_go, h0, h1, h2, h3]
  norm_num

/-- C4 witness: the schedule theorem instantiated with a function whose
every invocation raises error 0. -/
theorem retry_with_backoff_schedule_witness :
    (∀ n : Nat, ∃ e : Nat, (fun _ => (Except.error 0 : Except Nat Unit)) n = .error e)
    ∧ ((retry_with_backoff Nat Unit 3 1 60 2 true (fun _ => 0)
          (fun _ => Except.error 0)).calls = 4
      ∧ (retry_with_backoff Nat Unit 3 1 60 2 true (fun _ => 0)
          (fun _ => Except.error 0)).preDelays = [1, 2, 4]
      ∧ (retry_with_backoff Nat Unit 3 1 60 2 true (fun _ => 0)
          (fun _ => Except.error 0)).result = (fun _ => Except.error 0 : Nat → Except Nat Unit) 3) :=
  ⟨fun _ => ⟨0, rfl⟩,
   retry_with_backoff_schedule Nat Unit (fun _ => Except.error 0) (fun _ => 0) true
     (fun _ => ⟨0, rfl⟩)⟩

/-- Helper for C8: every pre-jitter delay produced by the retry loop is
non-negative when the decorator parameters are, and each applied delay
is the matching pre-jitter delay scaled by `0.5 + rand attempt`. -/
theorem retry_go_jitter_forall (E A : Type) (base_delay max_delay exponential_base : ℚ)
    (rand : Nat → ℚ) (f : Nat → Except E A)
    (hbase : 0 ≤ base_delay) (hexp : 0 ≤ exponential_base) (hmax : 0 ≤ max_delay)
    (hrand : ∀ n, 0 ≤ rand n ∧ rand n < 1) :
    ∀ remaining attempt,
      List.Forall₂
        (fun ad pd => (∃ r, 0 ≤ r ∧ r < 1 ∧ ad = jitterDelay pd r)
          ∧ pd / 2 ≤ ad ∧ ad ≤ 3 * pd / 2)
        (retry_go E A base_delay max_delay exponential_base true rand f
          attempt remaining).appliedDelays
        (retry_go E A base_delay max_delay exponential_base true rand f
          attempt remaining).preDelays := by
  intro remaining
  induction remaining with
  | zero =>
    intro attempt
    cases hf : f attempt <;> simp [retry_go, hf]
  | succ r ih =>
    intro attempt
    cases hf : f attempt with
    | ok a => simp [retry_go, hf]
    | error e =>
      have hd : 0 ≤ min (base_delay * exponential_base ^ attempt) max_delay :=
        le_min (mul_nonneg hbase (pow_nonneg hexp _)) hmax
      obtain ⟨hr0, hr1⟩ := hrand attempt
      have hunf : retry_go E A base_delay max_delay exponential_base true rand f
            attempt (r + 1)
          = { calls := (retry_go E A base_delay max_delay exponential_base true rand f
                (attempt + 1) r).calls + 1,
              preDelays := min (base_delay * exponential_base ^ attempt) max_delay
                :: (retry_go E A base_delay max_delay exponential_base true rand f
                    (attempt + 1) r).preDelays,
              appliedDelays := jitterDelay
                  (min (base_delay * exponential_base ^ attempt) max_delay) (rand attempt)
                :: (retry_go E A base_delay max_delay exponential_base true rand f
                    (attempt + 1) r).appliedDelays,
              result := (retry_go E A base_delay max_delay exponential_base true rand f
                (attempt + 1) r).result } := by
        simp [retry_go, hf]
      rw [hunf]
      dsimp only
      refine List.Forall₂.cons ⟨⟨rand attempt, hr0, hr1, rfl⟩, ?_, ?_⟩ (ih (attempt + 1))
      · simp only [jitterDelay]
        nlinarith [hd, hr0]
      · simp only [jitterDelay]
        nlinarith [hd, hr1]

/-- C8 (amended): when jitter is enabled, every delay applied by
`retry_with_backoff` equals the pre-jitter back-off delay multiplied by
`0.5 + r` where `r` is the `random.random()` sample in `[0, 1)` — a
factor drawn from `[0.5, 1.5)`, not `[0.5, 1.0]` — so the applied delay
lies between half and one-and-a-half times the pre-jitter delay and may
exceed it. -/
theorem retry_with_backoff_jitter_range (E A : Type) (max_retries : Nat)
    (base_delay max_delay exponential_base : ℚ) (rand : Nat → ℚ) (f : Nat → Except E A)
    (hbase : 0 ≤ base_delay) (hexp : 0 ≤ exponential_base) (hmax : 0 ≤ max_delay)
    (hrand : ∀ n, 0 ≤ rand n ∧ rand n < 1) :
    List.Forall₂
      (fun ad pd => (∃ r, 0 ≤ r ∧ r < 1 ∧ ad = jitterDelay pd r)
        ∧ pd / 2 ≤ ad ∧ ad ≤ 3 * pd / 2)
      (retry_with_backoff E A max_retries base_delay max_delay exponential_base true
        rand f).appliedDelays
      (retry_with_backoff E A max_retries base_delay max_delay exponential_base true
        rand f).preDelays :=
  retry_go_jitter_forall E A base_delay max_delay exponential_base rand f
    hbase hexp hmax hrand max_retries 0

/-- C8 witness: the jitter-range theorem instantiated with default
decorator parameters, an always-failing function and the constant
random sample 1/2. -/
theorem retry_with_backoff_jitter_range_witness :
    ((0:ℚ) ≤ 1) ∧ ((0:ℚ) ≤ 2) ∧ ((0:ℚ) ≤ 60)
    ∧ (∀ n : Nat, 0 ≤ ((fun _ => (1:ℚ)/2) n) ∧ ((fun _ => (1:ℚ)/2) n) < 1)
    ∧ List.Forall₂
      (fun ad pd => (∃ r, 0 ≤ r ∧ r < 1 ∧ ad = jitterDelay pd r)
        ∧ pd / 2 ≤ ad ∧ ad ≤ 3 * pd / 2)
      (retry_with_backoff Nat Unit 3 1 60 2 true (fun _ => 1/2)
        (fun _ => Except.error 0)).appliedDelays
      (retry_with_backoff Nat Unit 3 1 60 2 true (fun _ => 1/2)
        (fun _ => Except.error 0)).preDelays :=
  ⟨by norm_num, by norm_num, by norm_num, fun _ => by norm_num,
   retry_with_backoff_jitter_range Nat Unit 3 1 60 2 (fun _ => 1/2)
     (fun _ => Except.error 0) (by norm_num) (by norm_num) (by norm_num)
     (fun _ => by norm_num)⟩

/-- C8 counterexample: with jitter enabled and a `random.random()`
sample of 0.9 the first applied delay is 1.4s while the pre-jitter
delay is 1s — the jitter factor is 1.4 ∉ [0.5, 1.0] and the applied
delay exceeds the pre-jitter delay, contrary to the claim. -/
theorem retry_with_backoff_jitter_can_exceed :
    (retry_with_backoff Nat Unit 3 1 60 2 true (fun _ => 9/10)
      (fun _ => Except.error 0)).preDelays.getD 0 0 = 1
    ∧ (retry_with_backoff Nat Unit 3 1 60 2 true (fun _ => 9/10)
        (fun _ => Except.error 0)).appliedDelays.getD 0 0 = 7/5
    ∧ ¬((retry_with_backoff Nat Unit 3 1 60 2 true (fun _ => 9/10)
          (fun _ => Except.error 0)).appliedDelays.getD 0 0
        ≤ (retry_with_backoff Nat Unit 3 1 60 2 true (fun _ => 9/10)
            (fun _ => Except.error 0)).preDelays.getD 0 0) := by
  norm_num [retry_with_backoff, retry_go, jitterDelay]

/-! ## `AgentActionResponse` and `parse_agent_response`
(src/src/automation/llm_models.py, lines 10-76 and 194-218)

The raw LLM dictionary is modelled as a record of optional, already
typed fields; pydantic validation is the `Except`-valued function
`validateAgentAction`, and a raised `ValidationError` is its `.error`
case. -/

/-- Python `s.strip()`. -/
def pyStrip (s : String) : String :=
  ⟨((s.data.dropWhile Char.isWhitespace).reverse.dropWhile Char.isWhitespace).reverse⟩

/-- A raw agent-response dictionary: every field the model accepts,
present or absent. -/
structure RawAgentResponse where
  action : Option String := none
  selector : Option String := none
  field_type : Option String := none
  value : Option String := none
  use_phone_number_only : Option Bool := none
  visual_observation : Option String := none
  reasoning : Option String := none
  expected_outcome : Option String := none
  confidence : Option ℚ := none
deriving Repr, DecidableEq

/-- A validated `AgentActionResponse`. -/
structure AgentActionResponse where
  action : String
  selector : Option String
  field_type : Option String
  value : Option String
  use_phone_number_only : Bool
  visual_observation : Option String
  reasoning : String
  expected_outcome : Option String
  confidence : Option ℚ
deriving Repr, DecidableEq

/-- The `Literal` values accepted for `action`. -/
def agent_actions : List String := ["fill_field", "click", "wait", "complete"]

/-- The `validate_selector` field validator: `None` stays `None`, a
falsy (empty) string becomes `None`, anything else is stripped. -/
def validate_selector : Option String → Option String
  | none => none
  | some v => if v = "" then none else some (pyStrip v)

/-- `Except.isOk` (whether pydantic construction succeeded). -/
def exOk : Except ε α → Bool
  | .ok _ => true
  | .error _ => false

/-- pydantic validation of `AgentActionResponse(**d)`: `action` must be
present and one of the four literals, `reasoning` must be present (it
has no default), `confidence`, when present, must lie in `[0, 1]`;
every other field is optional with the defaults of the model. -/
def validateAgentAction (r : RawAgentResponse) : Except String AgentActionResponse :=
  match r.action with
  | none => .error "action: field required"
  | some a =>
    if a ∈ agent_actions then
      match r.reasoning with
      | none => .error "reasoning: field required"
      | some reas =>
        let result : AgentActionResponse :=
          { action := a, selector := validate_selector r.selector,
            field_type := r.field_type, value := r.value,
            use_phone_number_only := r.use_phone_number_only.getD false,
            visual_observation := r.visual_observation, reasoning := reas,
            expected_outcome := r.expected_outcome, confidence := r.confidence }
        match r.confidence with
        | some c =>
          if 0 ≤ c ∧ c ≤ 1 then .ok result
          else .error "confidence: out of range"
        | none => .ok result
    else .error "action: invalid literal"

/-- `parse_agent_response`: validate the raw dictionary; on failure fix
the `action` field when it is missing or not one of the four literals
(substituting "wait" and a reasoning note), then validate the fixed
dictionary — whose validation error, if any, propagates to the caller. -/
def parse_agent_response (r : RawAgentResponse) : Except String AgentActionResponse :=
  match validateAgentAction r with
  | .ok v => .ok v
  | .error _ =>
    let fixed :=
      if r.action = none ∨ r.action.getD "" ∉ agent_actions then
        { r with action := some "wait",
                 reasoning := some ("Original action invalid, defaulting to wait. Original: "
                   ++ r.action.getD "None") }
      else r
    validateAgentAction fixed

/-- Whether the raw `action` field is present and one of the literals. -/
def rawActionOk (r : RawAgentResponse) : Bool :=
  match r.action with
  | some a => a ∈ agent_actions
  | none => false

/-- Whether the raw `confidence` field, when present, lies in `[0, 1]`. -/
def rawConfidenceOk (r : RawAgentResponse) : Bool :=
  match r.confidence with
  | some c => 0 ≤ c ∧ c ≤ 1
  | none => true

theorem validateAgentAction_exOk (r : RawAgentResponse) :
    exOk (validateAgentAction r)
      = (rawActionOk r && r.reasoning.isSome && rawConfidenceOk r) := by
  unfold validateAgentAction rawActionOk rawConfidenceOk
  cases r.action with
  | none => simp [exOk]
  | some a =>
    cases r.reasoning with
    | none =>
      cases r.confidence <;> by_cases h : a ∈ agent_actions <;> simp [exOk, h]
    | some reas =>
      cases r.confidence with
      | none => by_cases h : a ∈ agent_actions <;> simp [exOk, h]
      | some c =>
        by_cases h : a ∈ agent_actions <;> by_cases hc : 0 ≤ c ∧ c ≤ 1 <;>
          simp [exOk, h, hc]

/-- C2 (amended): `parse_agent_response` returns a validated response
exactly when the confidence field (if present) is in range and, in case
the action literal is valid, the required reasoning field is present;
whenever the action field is missing or invalid (and the rest
validates), the safe default "wait" with a substituted reasoning note
is returned — but a raw dictionary whose action is valid while another
field fails validation makes the call raise instead of substituting. -/
theorem parse_agent_response_ok_iff (r : RawAgentResponse) :
    (exOk (parse_agent_response r)
      = (rawConfidenceOk r && (!(rawActionOk r) || r.reasoning.isSome)))
    ∧ (rawActionOk r = false → rawConfidenceOk r = true →
        ∃ v, parse_agent_response r = .ok v ∧ v.action = "wait") := by
  have hw : ("wait" : String) ∈ agent_actions := by decide
  obtain ⟨act, sel, ft, val, ph, vo, reas, eo, conf⟩ := r
  constructor
  · cases act with
    | none =>
      cases conf with
      | none =>
        cases reas <;>
          simp [parse_agent_response, validateAgentAction, rawActionOk,
                rawConfidenceOk, exOk, hw]
      | some c =>
        by_cases hc : 0 ≤ c ∧ c ≤ 1 <;> cases reas <;>
          simp [parse_agent_response, validateAgentAction, rawActionOk,
                rawConfidenceOk, exOk, hw, hc]
    | some a =>
      by_cases ha : a ∈ agent_actions
      · cases conf with
        | none =>
          cases reas <;>
            simp [parse_agent_response, validateAgentAction, rawActionOk,
                  rawConfidenceOk, exOk, hw, ha]
        | some c =>
          by_cases hc : 0 ≤ c ∧ c ≤ 1 <;> cases reas <;>
            simp [parse_agent_response, validateAgentAction, rawActionOk,
                  rawConfidenceOk, exOk, hw, ha, hc]
      · cases conf with
        | none =>
          cases reas <;>
            simp [parse_agent_response, validateAgentAction, rawActionOk,
                  rawConfidenceOk, exOk, hw, ha]
        | some c =>
          by_cases hc : 0 ≤ c ∧ c ≤ 1 <;> cases reas <;>
            simp [parse_agent_response, validateAgentAction, rawActionOk,
                  rawConfidenceOk, exOk, hw, ha, hc]
  · intro ha hc
    cases act with
    | none =>
      cases conf with
      | none =>
        cases reas <;>
          simp [parse_agent_response, validateAgentAction, rawActionOk,
                rawConfidenceOk, exOk, hw]
      | some c =>
        have hc2 : 0 ≤ c ∧ c ≤ 1 := by simpa [rawConfidenceOk] using hc
        cases reas <;>
          simp [parse_agent_response, validateAgentAction, rawActionOk,
                rawConfidenceOk, exOk, hw, hc2]
    | some a =>
      have ha2 : a ∉ agent_actions := by simpa [rawActionOk] using ha
      cases conf with
      | none =>
        cases reas <;>
          simp [parse_agent_response, validateAgentAction, rawActionOk,
                rawConfidenceOk, exOk, hw, ha2]
      | some c =>
        have hc2 : 0 ≤ c ∧ c ≤ 1 := by simpa [rawConfidenceOk] using hc
        cases reas <;>
          simp [parse_agent_response, validateAgentAction, rawActionOk,
                rawConfidenceOk, exOk, hw, ha2, hc2]

/-- C2 counterexample: a raw response with the valid action "wait" but
no reasoning field, and one with the valid action "click" but an
out-of-range confidence, both make `parse_agent_response` raise a
validation error instead of returning a safe default. -/
theorem parse_agent_response_can_raise :
    exOk (parse_agent_response { action := some "wait" }) = false
    ∧ exOk (parse_agent_response
        { action := some "click", reasoning := some "r", confidence := some 2 }) = false := by
  decide

/-- C2 witness: for a raw response with the invalid action "bogus" (and
in-range absent confidence) the parser returns the safe default action
"wait". -/
theorem parse_agent_response_ok_iff_witness :
    rawActionOk { action := some "bogus", reasoning := some "why" } = false
    ∧ rawConfidenceOk { action := some "bogus", reasoning := some "why" } = true
    ∧ ∃ v, parse_agent_response { action := some "bogus", reasoning := some "why" }
        = .ok v ∧ v.action = "wait" :=
  ⟨by decide, by decide,
   (parse_agent_response_ok_iff { action := some "bogus", reasoning := some "why" }).2
     (by decide) (by decide)⟩

/-! ## `CaptchaSolver.detect_captcha_type` (src/src/captcha/solver.py, lines 227-292)

The five regular expressions of the detector are implemented directly
as character-list matchers with Python `re.search` semantics: the scan
is leftmost, `[^"\x27]+` and `[^)]*` are greedy (maximal munch, the
latter with back-off), `.*?` is lazy (earliest continuation). -/

/-- The two quote characters of the character classes in the patterns. -/
def isQuote (c : Char) : Bool := c == '"' || c == Char.ofNat 39

/-- Python `\s` on the ASCII range. -/
def pyIsSpace (c : Char) : Bool :=
  c == ' ' || c == '\t' || c == '\n' || c == '\r' || c == Char.ofNat 11 || c == Char.ofNat 12

/-- Consume a literal at the head of the input, returning the rest. -/
def dropLit : List Char → List Char → Option (List Char)
  | [], s => some s
  | _ :: _, [] => none
  | a :: as, b :: bs => if a == b then dropLit as bs else none

/-- Match `["\x27]([^"\x27]+)["\x27]` at the head of the input:
an opening quote, a non-empty maximal run of non-quote characters
(greedy; the run is followed by a quote or the end, and only a quote
lets the pattern close), the closing quote. Returns the capture and
the rest. -/
def captureQuoted (s : List Char) : Option (String × List Char) :=
  match s with
  | [] => none
  | c :: rest =>
    if isQuote c then
      let cap := rest.takeWhile (fun x => !(isQuote x))
      match rest.dropWhile (fun x => !(isQuote x)) with
      | q :: rest2 => if cap ≠ [] ∧ isQuote q then some (⟨cap⟩, rest2) else none
      | [] => none
    else none

/-- Match `["\x27]sitekey["\x27]\s*:\s*["\x27]([^"\x27]+)["\x27]` at the
head of the input. -/
def matchSitekeyColon (t : List Char) : Option String :=
  match t with
  | [] => none
  | q1 :: rest =>
    if isQuote q1 then
      match dropLit "sitekey".data rest with
      | none => none
      | some r2 =>
        match r2 with
        | [] => none
        | q2 :: r3 =>
          if isQuote q2 then
            match r3.dropWhile pyIsSpace with
            | ':' :: r5 => (captureQuoted (r5.dropWhile pyIsSpace)).map Prod.fst
            | _ => none
          else none
    else none

/-- `re.search` driver: try the matcher at every position, leftmost
match first. -/
def findMap (f : List Char → Option α) : List Char → Option α
  | [] => f []
  | s@(_ :: rest) =>
    match f s with
    | some r => some r
    | none => findMap f rest

/-- The greedy `[^)]*` of the reCAPTCHA-v2 render pattern: try the tail
pattern after the longest run of non-`)` characters first, backing off
one character at a time. -/
def renderTry (r : List Char) : Nat → Option String
  | 0 => matchSitekeyColon r
  | k + 1 =>
    match matchSitekeyColon (r.drop (k + 1)) with
    | some x => some x
    | none => renderTry r k

/-- Match `grecaptcha\.render\([^)]*["\x27]sitekey["\x27]\s*:\s*["\x27]([^"\x27]+)["\x27]`
at the head of the input. -/
def renderAt (t : List Char) : Option String :=
  match dropLit "grecaptcha.render(".data t with
  | none => none
  | some r => renderTry r (r.takeWhile (fun c => !(c == ')'))).length

/-- Match `grecaptcha\.execute\(["\x27]([^"\x27]+)["\x27]` at the head
of the input. -/
def execAt (t : List Char) : Option String :=
  match dropLit "grecaptcha.execute(".data t with
  | none => none
  | some r => (captureQuoted r).map Prod.fst

/-- Match `data-sitekey=["\x27]([^"\x27]+)["\x27]` at the head of the
input. -/
def dataSitekeyAt (t : List Char) : Option String :=
  match dropLit "data-sitekey=".data t with
  | none => none
  | some r => (captureQuoted r).map Prod.fst

/-- Match `hcaptcha\.com.*?data-sitekey=["\x27]([^"\x27]+)["\x27]`
(DOTALL, lazy gap) at the head of the input. -/
def hcapAt (t : List Char) : Option String :=
  match dropLit "hcaptcha.com".data t with
  | none => none
  | some r => findMap dataSitekeyAt r

/-- `re.search` of the reCAPTCHA-v2 render pattern. -/
def findRender (s : List Char) : Option String := findMap renderAt s

/-- `re.search` of the reCAPTCHA-v3 execute pattern. -/
def findExec (s : List Char) : Option String := findMap execAt s

/-- `re.search` of the bare `data-sitekey` pattern. -/
def findDataSitekey (s : List Char) : Option String := findMap dataSitekeyAt s

/-- `re.search` of the hCaptcha-near-hcaptcha.com pattern. -/
def findHcap (s : List Char) : Option String := findMap hcapAt s

/-- `re.search` of the generic `sitekey` key pattern. -/
def findSitekeyColon (s : List Char) : Option String := findMap matchSitekeyColon s

/-- The hCaptcha tail of `detect_captcha_type` (the last two checks). -/
def detectHcaptcha (page : String) : Option (String × String) :=
  match findHcap page.data with
  | some k => some ("hcaptcha", k)
  | none =>
    if strHas (pyLower page) "hcaptcha" then
      match findSitekeyColon page.data with
      | some k => some ("hcaptcha", k)
      | none => none
    else none

/-- `CaptchaSolver.detect_captcha_type`: the ordered cascade of checks,
returning the captcha type and sitekey of the first match. -/
def detect_captcha_type (page : String) : Option (String × String) :=
  match findRender page.data with
  | some k => some ("recaptcha_v2", k)
  | none =>
    match findExec page.data with
    | some k => some ("recaptcha_v3", k)
    | none =>
      match findDataSitekey page.data with
      | some k =>
        if strHas (pyLower page) "recaptcha" then
          if strHas page "grecaptcha.execute" then some ("recaptcha_v3", k)
          else some ("recaptcha_v2", k)
        else detectHcaptcha page
      | none => detectHcaptcha page

theorem startsList_append_left (xs ys : List Char) :
    ∀ t, startsList (xs ++ ys) t = true → startsList xs t = true := by
  induction xs with
  | nil => intro t _; rfl
  | cons a as ih =>
    intro t h
    cases t with
    | nil => simp [startsList] at h
    | cons b bs =>
      simp [startsList] at h ⊢
      exact ⟨h.1, ih bs h.2⟩

theorem dropLit_startsList (lit : List Char) :
    ∀ t r, dropLit lit t = some r → startsList lit t = true := by
  induction lit with
  | nil => intro t r _; rfl
  | cons a as ih =>
    intro t r h
    cases t with
    | nil => simp [dropLit] at h
    | cons b bs =>
      by_cases hab : a == b
      · simp [dropLit, hab] at h
        simp [startsList, hab]
        exact ih bs r h
      · simp [dropLit, hab] at h

theorem hasSubList_of_suffix_startsList (needle : List Char) :
    ∀ s t : List Char, t.IsSuffix s → startsList needle t = true →
      hasSubList needle s = true := by
  intro s
  induction s with
  | nil =>
    intro t hsuf hst
    have : t = [] := List.eq_nil_of_suffix_nil hsuf
    subst this
    simpa [hasSubList] using hst
  | cons b bs ih =>
    intro t hsuf hst
    obtain ⟨u, hu⟩ := hsuf
    cases u with
    | nil =>
      simp at hu
      subst hu
      simp [hasSubList, hst]
    | cons c cs =>
      have : t.IsSuffix bs := by
        refine ⟨cs, ?_⟩
        have := hu
        simp at this
        exact this.2
      simp [hasSubList]
      right
      exact ih t this hst

theorem findMap_suffix (f : List Char → Option α) :
    ∀ s a, findMap f s = some a → ∃ t : List Char, t.IsSuffix s ∧ f t = some a := by
  intro s
  induction s with
  | nil =>
    intro a h
    exact ⟨[], List.suffix_refl _, h⟩
  | cons b bs ih =>
    intro a h
    unfold findMap at h
    cases hf : f (b :: bs) with
    | some r =>
      rw [hf] at h
      simp at h
      exact ⟨b :: bs, List.suffix_refl _, by rw [hf, h]⟩
    | none =>
      rw [hf] at h
      simp at h
      obtain ⟨t, hsuf, hft⟩ := ih a h
      exact ⟨t, hsuf.trans ⟨[b], rfl⟩, hft⟩

/-- If the page does not contain "grecaptcha.execute" as a substring,
the reCAPTCHA-v3 regular expression cannot match. -/
theorem findExec_none_of_not_strHas (page : String)
    (h : strHas page "grecaptcha.execute" = false) : findExec page.data = none := by
  cases hfe : findExec page.data with
  | none => rfl
  | some a =>
    exfalso
    obtain ⟨t, hsuf, hft⟩ := findMap_suffix execAt page.data a hfe
    unfold execAt at hft
    cases hdl : dropLit "grecaptcha.execute(".data t with
    | none => rw [hdl] at hft; simp at hft
    | some r =>
      have h1 := dropLit_startsList _ _ _ hdl
      have hsplit : "grecaptcha.execute(".data = "grecaptcha.execute".data ++ ['('] := by
        decide
      rw [hsplit] at h1
      have h2 := startsList_append_left _ _ _ h1
      have h3 := hasSubList_of_suffix_startsList _ _ _ hsuf h2
      rw [strHas] at h
      rw [h] at h3
      exact Bool.false_ne_true h3

/-- C5 (amended): provided the highest-priority `grecaptcha.render`
sitekey pattern does not match anywhere in the page, the detector
behaves as the claim describes: a `data-sitekey` capture `k` together
with the word "recaptcha" and no `grecaptcha.execute` occurrence
detects as recaptcha_v2 with sitekey `k`, and a matching
`grecaptcha.execute("k")` call detects as recaptcha_v3 with sitekey
`k`. -/
theorem detect_captcha_type_v2_v3 (page : String) :
    (findRender page.data = none →
      ∀ k, findDataSitekey page.data = some k →
        strHas (pyLower page) "recaptcha" = true →
        strHas page "grecaptcha.execute" = false →
        detect_captcha_type page = some ("recaptcha_v2", k))
    ∧ (findRender page.data = none →
      ∀ k, findExec page.data = some k →
        detect_captcha_type page = some ("recaptcha_v3", k)) := by
  constructor
  · intro hr k hd hrec hexec
    have hfe : findExec page.data = none := findExec_none_of_not_strHas page hexec
    simp [detect_captcha_type, hr, hfe, hd, hrec, hexec]
  · intro hr k he
    simp [detect_captcha_type, hr, he]

/-- C5 witness: the amended theorem applied to a page with a bare
`data-sitekey` and the word "recaptcha" (first part) and to a page with
a `grecaptcha.execute` call (second part). -/
theorem detect_captcha_type_v2_v3_witness :
    (findRender ("recaptcha data-sitekey=\"A\"").data = none
      ∧ findDataSitekey ("recaptcha data-sitekey=\"A\"").data = some "A"
      ∧ strHas (pyLower "recaptcha data-sitekey=\"A\"") "recaptcha" = true
      ∧ strHas "recaptcha data-sitekey=\"A\"" "grecaptcha.execute" = false
      ∧ detect_captcha_type "recaptcha data-sitekey=\"A\"" = some ("recaptcha_v2", "A"))
    ∧ (findRender ("grecaptcha.execute(\"K\")").data = none
      ∧ findExec ("grecaptcha.execute(\"K\")").data = some "K"
      ∧ detect_captcha_type "grecaptcha.execute(\"K\")" = some ("recaptcha_v3", "K")) :=
  ⟨⟨by decide, by decide, by decide, by decide,
    (detect_captcha_type_v2_v3 "recaptcha data-sitekey=\"A\"").1 (by decide) "A"
      (by decide) (by decide) (by decide)⟩,
   ⟨by decide, by decide,
    (detect_captcha_type_v2_v3 "grecaptcha.execute(\"K\")").2 (by decide) "K"
      (by decide)⟩⟩

/-- C5 counterexample: a page containing a `grecaptcha.render` sitekey
configuration as well as a bare `data-sitekey` attribute, the word
"recaptcha", and no `grecaptcha.execute` call. The claim requires the
result recaptcha_v2 with the `data-sitekey` value "A", but the
higher-priority render pattern wins and the detector returns sitekey
"B". -/
theorem detect_captcha_type_render_wins :
    findDataSitekey ("grecaptcha.render(\"sitekey\":\"B\") data-sitekey=\"A\"").data
      = some "A"
    ∧ strHas (pyLower "grecaptcha.render(\"sitekey\":\"B\") data-sitekey=\"A\"")
        "recaptcha" = true
    ∧ strHas "grecaptcha.render(\"sitekey\":\"B\") data-sitekey=\"A\""
        "grecaptcha.execute" = false
    ∧ detect_captcha_type "grecaptcha.render(\"sitekey\":\"B\") data-sitekey=\"A\""
        = some ("recaptcha_v2", "B")
    ∧ detect_captcha_type "grecaptcha.render(\"sitekey\":\"B\") data-sitekey=\"A\""
        ≠ some ("recaptcha_v2", "A") := by
  refine ⟨by decide, by decide, by decide, by decide, by decide⟩

/-! ## `PlatformWebSocket._send` / `_flush_queue` / `connect`
(src/src/api/websocket.py, lines 83-125 and 255-299)

The channel is modelled by its connection flags, the outgoing FIFO
queue (`asyncio.Queue`) and the log of messages actually written to the
wire. Whether an individual `self._ws.send` call raises is supplied by
a boolean oracle. -/

/-- An outbound raw-JSON message. -/
inductive WsMsg where
  | status (s : String)
  | result (task_id : String)
  | log (level message : String)
  | heartbeat
  | request_task
deriving DecidableEq, Repr

/-- The observable state of a `PlatformWebSocket`. -/
structure WSState where
  connected : Bool
  hasWs : Bool
  queue : List WsMsg
  sent : List WsMsg
deriving DecidableEq, Repr

/-- `PlatformWebSocket._send`: while not connected (or without a
socket) the message is put on the outgoing queue; otherwise it is sent
on the wire, and when the send raises it is re-queued. `wireOk` says
whether `self._ws.send` succeeds. -/
def ws_send (st : WSState) (m : WsMsg) (wireOk : Bool) : Bool × WSState :=
  if !st.connected || !st.hasWs then
    (false, { st with queue := st.queue ++ [m] })
  else if wireOk then
    (true, { st with sent := st.sent ++ [m] })
  else
    (false, { st with queue := st.queue ++ [m] })

/-- `PlatformWebSocket._flush_queue`: while the queue is non-empty,
dequeue a message; if a socket is present, send it on the wire — an
exception there is caught, logged, and breaks the loop, so the
just-dequeued message is dropped; with no socket the dequeued message
is silently discarded and draining continues. `sendOk i` says whether
the `i`-th wire send of this flush succeeds. Returns the messages
written to the wire, in order, and the remaining queue. -/
def flush_queue (hasWs : Bool) (sendOk : Nat → Bool) :
    List WsMsg → Nat → List WsMsg × List WsMsg
  | [], _ => ([], [])
  | m :: rest, i =>
    if hasWs then
      if sendOk i then
        let fl := flush_queue hasWs sendOk rest (i + 1)
        (m :: fl.1, fl.2)
      else ([], rest)
    else flush_queue hasWs sendOk rest i

/-- A successful `PlatformWebSocket.connect()`: set the connection
flags, send the initial "connected" status message through `_send`
(`statusOk` = whether that wire send succeeds), then flush the queue
(`sendOk` = the flush's wire sends). The heartbeat and receive
background tasks do not touch the queue and are not modelled. -/
def ws_connect_success (st : WSState) (statusOk : Bool) (sendOk : Nat → Bool) : WSState :=
  let st1 := { st with connected := true, hasWs := true }
  let st2 := (ws_send st1 (WsMsg.status "connected") statusOk).2
  let fl := flush_queue true sendOk st2.queue 0
  { st2 with queue := fl.2, sent := st2.sent ++ fl.1 }

theorem flush_queue_all_ok (sendOk : Nat → Bool) (h : ∀ i, sendOk i = true) :
    ∀ (q : List WsMsg) (i : Nat), flush_queue true sendOk q i = (q, []) := by
  intro q
  induction q with
  | nil => intro i; rfl
  | cons m rest ih => intro i; simp [flush_queue, h i, ih (i + 1)]

/-- C7 (amended): every outbound message composed while disconnected is
appended to the in-memory FIFO, and after the next successful connect
the queued messages are flushed in their original order provided every
wire send of the flush succeeds; when a send during the flush fails,
the message being flushed is dropped and only the messages behind it
remain queued. -/
theorem ws_queue_fifo_flush (st : WSState) (m : WsMsg) (wireOk statusOk : Bool)
    (sendOk : Nat → Bool) :
    (st.connected = false →
      ws_send st m wireOk = (false, { st with queue := st.queue ++ [m] }))
    ∧ ((∀ i, sendOk i = true) → statusOk = true →
      (ws_connect_success st statusOk sendOk).queue = []
      ∧ (ws_connect_success st statusOk sendOk).sent
          = st.sent ++ [WsMsg.status "connected"] ++ st.queue) := by
  constructor
  · intro hdis
    simp [ws_send, hdis]
  · intro hall hst
    subst hst
    unfold ws_connect_success
    simp [ws_send, flush_queue_all_ok sendOk hall]

/-- C7 witness: the FIFO/flush theorem applied to a disconnected state
with two already queued messages and a flush whose sends all succeed. -/
theorem ws_queue_fifo_flush_witness :
    (({ connected := false, hasWs := false, queue := [WsMsg.heartbeat], sent := [] }
        : WSState).connected = false
      ∧ ws_send
          { connected := false, hasWs := false, queue := [WsMsg.heartbeat], sent := [] }
          (WsMsg.log "info" "x") true
          = (false,
             { connected := false, hasWs := false,
               queue := [WsMsg.heartbeat, WsMsg.log "info" "x"], sent := [] }))
    ∧ ((∀ i : Nat, (fun _ => true) i = true)
      ∧ (ws_connect_success
          { connected := false, hasWs := false,
            queue := [WsMsg.heartbeat, WsMsg.log "info" "x"], sent := [] }
          true (fun _ => true)).queue = []
      ∧ (ws_connect_success
          { connected := false, hasWs := false,
            queue := [WsMsg.heartbeat, WsMsg.log "info" "x"], sent := [] }
          true (fun _ => true)).sent
          = [] ++ [WsMsg.status "connected"] ++ [WsMsg.heartbeat, WsMsg.log "info" "x"]) :=
  ⟨⟨rfl,
    (ws_queue_fifo_flush
      { connected := false, hasWs := false, queue := [WsMsg.heartbeat], sent := [] }
      (WsMsg.log "info" "x") true true (fun _ => true)).1 rfl⟩,
   ⟨fun _ => rfl,
    ((ws_queue_fifo_flush
      { connected := false, hasWs := false,
        queue := [WsMsg.heartbeat, WsMsg.log "info" "x"], sent := [] }
      WsMsg.heartbeat true true (fun _ => true)).2 (fun _ => rfl) rfl).1,
    ((ws_queue_fifo_flush
      { connected := false, hasWs := false,
        queue := [WsMsg.heartbeat, WsMsg.log "info" "x"], sent := [] }
      WsMsg.heartbeat true true (fun _ => true)).2 (fun _ => rfl) rfl).2⟩⟩

/-- C7 counterexample: two messages are queued while disconnected; on
the next successful connect the first wire send of the flush fails, and
the first queued message ends up neither on the wire nor back in the
queue — a previously-queued outbound message is silently dropped,
contrary to the claim. -/
theorem ws_flush_failure_drops_message :
    ((ws_send (ws_send { connected := false, hasWs := false, queue := [], sent := [] }
        (WsMsg.log "info" "a") true).2 (WsMsg.log "info" "b") true).2.queue
      = [WsMsg.log "info" "a", WsMsg.log "info" "b"])
    ∧ (ws_connect_success
        (ws_send (ws_send { connected := false, hasWs := false, queue := [], sent := [] }
          (WsMsg.log "info" "a") true).2 (WsMsg.log "info" "b") true).2
        true (fun _ => false)).queue = [WsMsg.log "info" "b"]
    ∧ (ws_connect_success
        (ws_send (ws_send { connected := false, hasWs := false, queue := [], sent := [] }
          (WsMsg.log "info" "a") true).2 (WsMsg.log "info" "b") true).2
        true (fun _ => false)).sent = [WsMsg.status "connected"]
    ∧ WsMsg.log "info" "a" ∉ (ws_connect_success
        (ws_send (ws_send { connected := false, hasWs := false, queue := [], sent := [] }
          (WsMsg.log "info" "a") true).2 (WsMsg.log "info" "b") true).2
        true (fun _ => false)).queue
    ∧ WsMsg.log "info" "a" ∉ (ws_connect_success
        (ws_send (ws_send { connected := false, hasWs := false, queue := [], sent := [] }
          (WsMsg.log "info" "a") true).2 (WsMsg.log "info" "b") true).2
        true (fun _ => false)).sent := by
  decide

/-! ## `ReverseOutreachBot` and the signup datastore
(src/src/bot/orchestrator.py, lines 142-199 and 201-372)

The datastore itself (`src.database`) has no source under src/; its
operations are modelled from the specification (§4.8). The browser,
CAPTCHA solver and AI agent outcomes of one `_process_ad` call are
supplied by a `ProcEnv` oracle. -/

/-- An ad dictionary as consumed by `_process_ad`. -/
structure BotAd where
  url : String
  source : String
  title : String
  description : String
deriving DecidableEq, Repr

/-- The `signup_data` dictionary as persisted by `add_signup` at the end
of `_process_ad`. Fields that the code only sets on some paths carry
the absent-key default. -/
structure SignUpRec where
  ad_url : String
  ad_source : String
  ad_title : String
  ad_description : String
  status : String
  attempts_count : Nat
  landing_url : String
  detected_platform : String
  captcha_encountered : Bool := false
  captcha_type : String := ""
  captcha_solved : Bool := false
  form_fields_filled : String := "[]"
  processing_time : ℚ := 0
deriving DecidableEq, Repr

/-- The `error_data` dictionary recorded by `_record_error`. -/
structure ErrorRec where
  ad_url : String
  ad_source : String
  error_type : String
  error_message : String
  page_url : String
deriving DecidableEq, Repr

/-- The signup datastore's contents: signups and errors, append-only. -/
structure Db where
  signups : List SignUpRec
  errors : List ErrorRec
deriving DecidableEq, Repr

/-- Modelled from the spec: `DatabaseOperations.is_url_processed`
(the `src.database` module is absent from the source tree). Per §4.8 it
filters "freshly scraped candidates against everything previously
attempted, independent of outcome", so a url counts as processed when
any previous attempt left a signup or an error record for it. -/
def is_url_processed (db : Db) (url : String) : Bool :=
  db.signups.any (fun s => s.ad_url = url) || db.errors.any (fun e => e.ad_url = url)

/-- Modelled from the spec: `DatabaseOperations.add_signup` — insert
one SignUp row; rows are immutable facts once recorded (§4.8). -/
def add_signup (db : Db) (r : SignUpRec) : Db :=
  { db with signups := db.signups ++ [r] }

/-- Modelled from the spec: `DatabaseOperations.add_error` — insert one
ErrorRecord row, append-only (§4.8). -/
def add_error (db : Db) (e : ErrorRec) : Db :=
  { db with errors := db.errors ++ [e] }

/-- The environment of one `_process_ad` call: stop-flag answers at the
three checkpoints, navigation outcome, detected platform, the CAPTCHA
detection/solving outcome of `_handle_captcha` (`none` = no CAPTCHA or
no solver), the AI agent's outcome, the final page url/text used for
the success classification, and whether an unexpected exception occurs
inside the try-block (`crash`, the `processing_error` path). -/
structure ProcEnv where
  stopAtStart : Bool := false
  stopBeforeNav : Bool := false
  navOk : Bool := true
  stopAfterNav : Bool := false
  crash : Bool := false
  landing_url : String := ""
  platform : String := "Unknown"
  pageUrl : String := ""
  captcha : Option (String × Bool) := none
  agentSuccess : Bool := true
  agentFields : String := "[]"
  final_url : String := ""
  finalText : String := ""
  processing_time : ℚ := 0
deriving Repr

/-- The success keywords checked on the final page text. -/
def bot_success_words : List String := ["thank", "success", "confirm", "submitted"]

/-- The tail of `_process_ad` after CAPTCHA handling: run the AI agent;
on failure record an `agent_failed` error and abort the ad; on success
classify the outcome (redirect or success keyword ⇒ "success", else
"pending") and persist exactly one SignUp row. -/
def process_ad_agent_phase (env : ProcEnv) (ad : BotAd) (db : Db)
    (captcha_encountered : Bool) (captcha_type : String) (captcha_solved : Bool) :
    Bool × Db :=
  if !env.agentSuccess then
    (false, add_error db
      { ad_url := ad.url, ad_source := ad.source, error_type := "agent_failed",
        error_message := "AI Agent failed", page_url := env.pageUrl })
  else
    let status := if env.final_url ≠ env.landing_url then "success"
      else if bot_success_words.any (fun w => strHas (pyLower env.finalText) w)
      then "success" else "pending"
    (true, add_signup db
      { ad_url := ad.url, ad_source := ad.source, ad_title := ad.title,
        ad_description := ad.description, status := status, attempts_count := 1,
        landing_url := env.landing_url, detected_platform := env.platform,
        captcha_encountered := captcha_encountered, captcha_type := captcha_type,
        captcha_solved := captcha_solved, form_fields_filled := env.agentFields,
        processing_time := env.processing_time })

/-- `ReverseOutreachBot._process_ad`: the cooperative stop checks, the
navigation / CAPTCHA / agent failure paths (each recording an error and
aborting this ad only), the `processing_error` catch-all, and the
single `add_signup` on the fully successful path. -/
def process_ad (env : ProcEnv) (ad : BotAd) (db : Db) : Bool × Db :=
  if env.stopAtStart then (false, db)
  else if env.crash then
    (false, add_error db
      { ad_url := ad.url, ad_source := ad.source, error_type := "processing_error",
        error_message := "unexpected exception", page_url := env.pageUrl })
  else if env.stopBeforeNav then (false, db)
  else if !env.navOk then
    (false, add_error db
      { ad_url := ad.url, ad_source := ad.source, error_type := "navigation_failed",
        error_message := "Failed to load page", page_url := env.pageUrl })
  else if env.stopAfterNav then (false, db)
  else
    match env.captcha with
    | some (ct, solved) =>
      if !solved then
        (false, add_error db
          { ad_url := ad.url, ad_source := ad.source, error_type := "captcha_failed",
            error_message := "Failed to solve CAPTCHA", page_url := env.pageUrl })
      else process_ad_agent_phase env ad db true ct true
    | none => process_ad_agent_phase env ad db false "" false

/-- The duplicate filter at the end of `_get_ads` (lines 188-199):
every ad whose url the datastore reports as already processed is
dropped before any browser activity. -/
def gather_new_ads (db : Db) (scraped : List BotAd) : List BotAd :=
  scraped.filter (fun ad => !(is_url_processed db ad.url))

/-- The per-ad processing loop of `run()`, threaded over the datastore;
`envs i` is the environment of the `i`-th processed ad. Rate-limit
pauses, cool-downs and early exits only stop processing earlier and add
no records; they are not modelled. -/
def run_bot_go (envs : Nat → ProcEnv) : List BotAd → Nat → Db → Db
  | [], _, db => db
  | ad :: rest, i, db => run_bot_go envs rest (i + 1) (process_ad (envs i) ad db).2

/-- One bot run: gather ads (with the duplicate filter), then process
them one at a time. -/
def run_bot (envs : Nat → ProcEnv) (scraped : List BotAd) (db : Db) : Db :=
  run_bot_go envs (gather_new_ads db scraped) 0 db

/-- Number of SignUp rows recorded for a url. -/
def count_signups_for (db : Db) (url : String) : Nat :=
  (db.signups.map SignUpRec.ad_url).count url

theorem process_ad_agent_phase_signups (env : ProcEnv) (ad : BotAd) (db : Db)
    (ce : Bool) (ct : String) (cs : Bool) :
    db.signups <+: (process_ad_agent_phase env ad db ce ct cs).2.signups
    ∧ ((process_ad_agent_phase env ad db ce ct cs).1 = true →
      (process_ad_agent_phase env ad db ce ct cs).2.signups.map SignUpRec.ad_url
        = db.signups.map SignUpRec.ad_url ++ [ad.url])
    ∧ ((process_ad_agent_phase env ad db ce ct cs).1 = false →
      (process_ad_agent_phase env ad db ce ct cs).2.signups = db.signups)
    ∧ db.errors <+: (process_ad_agent_phase env ad db ce ct cs).2.errors := by
  cases h : env.agentSuccess with
  | false =>
    refine ⟨?_, ?_, ?_, ?_⟩
    · simp [process_ad_agent_phase, h, add_error]
    · intro hres
      simp [process_ad_agent_phase, h] at hres
    · intro _
      simp [process_ad_agent_phase, h, add_error]
    · simp [process_ad_agent_phase, h, add_error]
  | true =>
    refine ⟨?_, ?_, ?_, ?_⟩
    · simp [process_ad_agent_phase, h, add_signup]
    · intro _
      simp [process_ad_agent_phase, h, add_signup]
    · intro hres
      simp [process_ad_agent_phase, h] at hres
    · simp [process_ad_agent_phase, h, add_signup]

theorem process_ad_signups (env : ProcEnv) (ad : BotAd) (db : Db) :
    db.signups <+: (process_ad env ad db).2.signups
    ∧ ((process_ad env ad db).1 = true →
      (process_ad env ad db).2.signups.map SignUpRec.ad_url
        = db.signups.map SignUpRec.ad_url ++ [ad.url])
    ∧ ((process_ad env ad db).1 = false →
      (process_ad env ad db).2.signups = db.signups)
    ∧ db.errors <+: (process_ad env ad db).2.errors := by
  by_cases h1 : env.stopAtStart = true
  · refine ⟨?_, ?_, ?_, ?_⟩ <;> simp [process_ad, h1]
  by_cases h2 : env.crash = true
  · refine ⟨?_, ?_, ?_, ?_⟩ <;> simp [process_ad, h1, h2, add_error]
  by_cases h3 : env.stopBeforeNav = true
  · refine ⟨?_, ?_, ?_, ?_⟩ <;> simp [process_ad, h1, h2, h3]
  by_cases h4 : env.navOk = true
  case neg =>
    refine ⟨?_, ?_, ?_, ?_⟩ <;> simp [process_ad, h1, h2, h3, h4, add_error]
  by_cases h5 : env.stopAfterNav = true
  · refine ⟨?_, ?_, ?_, ?_⟩ <;> simp [process_ad, h1, h2, h3, h4, h5]
  cases hc : env.captcha with
  | none =>
    have heq : process_ad env ad db = process_ad_agent_phase env ad db false "" false := by
      simp [process_ad, h1, h2, h3, h4, h5, hc]
    rw [heq]
    exact process_ad_agent_phase_signups env ad db false "" false
  | some p =>
    obtain ⟨ct, solved⟩ := p
    cases hs : solved with
    | false =>
      refine ⟨?_, ?_, ?_, ?_⟩ <;>
        simp [process_ad, h1, h2, h3, h4, h5, hc, hs, add_error]
    | true =>
      have heq : process_ad env ad db = process_ad_agent_phase env ad db true ct true := by
        simp [process_ad, h1, h2, h3, h4, h5, hc, hs]
      rw [heq]
      exact process_ad_agent_phase_signups env ad db true ct true

/-- Once a url is recorded as processed it stays processed across any
further `_process_ad` call (both record kinds are append-only). -/
theorem is_url_processed_mono (env : ProcEnv) (ad : BotAd) (db : Db) (url : String)
    (h : is_url_processed db url = true) :
    is_url_processed (process_ad env ad db).2 url = true := by
  obtain ⟨⟨ts, hts⟩, _, _, ⟨te, hte⟩⟩ := process_ad_signups env ad db
  unfold is_url_processed at h ⊢
  rw [← hts, ← hte]
  rcases Bool.or_eq_true_iff.mp h with hs | he
  · simp [List.any_append, hs]
  · simp [List.any_append, he]

/-- Every ad surviving the duplicate filter has a url the datastore
does not report as processed. -/
theorem gather_new_ads_excludes (db : Db) (scraped : List BotAd) (url : String)
    (h : is_url_processed db url = true) :
    ∀ ad ∈ gather_new_ads db scraped, ad.url ≠ url := by
  intro ad had heq
  unfold gather_new_ads at had
  rw [List.mem_filter] at had
  obtain ⟨_, hf⟩ := had
  rw [heq, h] at hf
  simp at hf

theorem run_bot_go_count (envs : Nat → ProcEnv) (url : String) :
    ∀ (ads : List BotAd) (i : Nat) (db : Db), (∀ ad ∈ ads, ad.url ≠ url) →
      count_signups_for (run_bot_go envs ads i db) url = count_signups_for db url := by
  intro ads
  induction ads with
  | nil => intro i db _; rfl
  | cons ad rest ih =>
    intro i db hall
    have hne : ad.url ≠ url := hall ad (by simp)
    rw [run_bot_go, ih (i + 1) _ (fun a ha => hall a (by simp [ha]))]
    obtain ⟨_, hok, hfail, _⟩ := process_ad_signups (envs i) ad db
    cases hres : (process_ad (envs i) ad db).1 with
    | true =>
      unfold count_signups_for
      rw [hok hres, List.count_append]
      have hbe : (ad.url == url) = false := by simp [hne]
      simp [List.count_singleton', hbe]
      exact hne
    | false =>
      unfold count_signups_for
      rw [hfail hres]

/-- C6 (amended): `_process_ad` appends at most one SignUp row and
never touches existing rows: exactly one row, keyed by the ad's url, is
appended when the attempt fully succeeds, and none when it fails at
navigation, CAPTCHA, the agent, a stop request, or an unexpected
exception (those paths record an ErrorRecord instead). Once the
datastore reports the url as processed, a later gather pass filters
every ad with that url out before any browser activity and a full later
run leaves the number of SignUp rows for that url unchanged. -/
theorem process_ad_signup_record_discipline (env : ProcEnv) (ad : BotAd) (db : Db)
    (scraped2 : List BotAd) (envs2 : Nat → ProcEnv) :
    db.signups <+: (process_ad env ad db).2.signups
    ∧ ((process_ad env ad db).1 = true →
      (process_ad env ad db).2.signups.map SignUpRec.ad_url
        = db.signups.map SignUpRec.ad_url ++ [ad.url])
    ∧ ((process_ad env ad db).1 = false →
      (process_ad env ad db).2.signups = db.signups)
    ∧ (is_url_processed (process_ad env ad db).2 ad.url = true →
      (∀ a ∈ gather_new_ads (process_ad env ad db).2 scraped2, a.url ≠ ad.url)
      ∧ count_signups_for (run_bot envs2 scraped2 (process_ad env ad db).2) ad.url
          = count_signups_for (process_ad env ad db).2 ad.url) := by
  obtain ⟨hpre, hok, hfail, _⟩ := process_ad_signups env ad db
  refine ⟨hpre, hok, hfail, ?_⟩
  intro hproc
  refine ⟨gather_new_ads_excludes _ _ _ hproc, ?_⟩
  unfold run_bot
  exact run_bot_go_count envs2 ad.url _ 0 _ (gather_new_ads_excludes _ _ _ hproc)

/-- C6 witness: the record-discipline theorem applied to a fully
successful first attempt on one ad followed by a second run over the
same scraped list. -/
theorem process_ad_signup_record_discipline_witness :
    ((process_ad {} ⟨"https://x.com", "csv", "t", "d"⟩ ⟨[], []⟩).1 = true)
    ∧ ((process_ad {} ⟨"https://x.com", "csv", "t", "d"⟩ ⟨[], []⟩).2.signups.map
        SignUpRec.ad_url
        = ([] : List SignUpRec).map SignUpRec.ad_url ++ ["https://x.com"])
    ∧ (is_url_processed (process_ad {} ⟨"https://x.com", "csv", "t", "d"⟩ ⟨[], []⟩).2
        "https://x.com" = true)
    ∧ (∀ a ∈ gather_new_ads (process_ad {} ⟨"https://x.com", "csv", "t", "d"⟩ ⟨[], []⟩).2
          [⟨"https://x.com", "csv", "t", "d"⟩], a.url ≠ "https://x.com")
    ∧ count_signups_for
        (run_bot (fun _ => {}) [⟨"https://x.com", "csv", "t", "d"⟩]
          (process_ad {} ⟨"https://x.com", "csv", "t", "d"⟩ ⟨[], []⟩).2)
        "https://x.com"
        = count_signups_for (process_ad {} ⟨"https://x.com", "csv", "t", "d"⟩ ⟨[], []⟩).2
            "https://x.com" :=
  ⟨by decide,
   (process_ad_signup_record_discipline {} ⟨"https://x.com", "csv", "t", "d"⟩ ⟨[], []⟩
     [⟨"https://x.com", "csv", "t", "d"⟩] (fun _ => {})).2.1 (by decide),
   by decide,
   ((process_ad_signup_record_discipline {} ⟨"https://x.com", "csv", "t", "d"⟩ ⟨[], []⟩
     [⟨"https://x.com", "csv", "t", "d"⟩] (fun _ => {})).2.2.2 (by decide)).1,
   ((process_ad_signup_record_discipline {} ⟨"https://x.com", "csv", "t", "d"⟩ ⟨[], []⟩
     [⟨"https://x.com", "csv", "t", "d"⟩] (fun _ => {})).2.2.2 (by decide)).2⟩

/-- C6 counterexample: processing one ad whose navigation fails records
an ErrorRecord and no SignUp row; the second run over the same url is
filtered out by `is_url_processed` before any browser activity, so
zero — not exactly one — SignUp records exist for that url afterwards,
refuting the claim for attempts that end in a navigation failure. -/
theorem failed_attempt_leaves_zero_signups :
    (run_bot (fun _ => { navOk := false })
      [⟨"https://x.com", "csv", "t", "d"⟩] ⟨[], []⟩).signups = []
    ∧ (run_bot (fun _ => { navOk := false })
        [⟨"https://x.com", "csv", "t", "d"⟩] ⟨[], []⟩).errors ≠ []
    ∧ gather_new_ads
        (run_bot (fun _ => { navOk := false })
          [⟨"https://x.com", "csv", "t", "d"⟩] ⟨[], []⟩)
        [⟨"https://x.com", "csv", "t", "d"⟩] = []
    ∧ count_signups_for
        (run_bot (fun _ => {}) [⟨"https://x.com", "csv", "t", "d"⟩]
          (run_bot (fun _ => { navOk := false })
            [⟨"https://x.com", "csv", "t", "d"⟩] ⟨[], []⟩))
        "https://x.com" = 0
    ∧ count_signups_for
        (run_bot (fun _ => {}) [⟨"https://x.com", "csv", "t", "d"⟩]
          (run_bot (fun _ => { navOk := false })
            [⟨"https://x.com", "csv", "t", "d"⟩] ⟨[], []⟩))
        "https://x.com" ≠ 1 := by
  decide

/-! ## `AgentState` and the reasoning loop of `execute_signup`
(src/src/automation/agent_orchestrator.py, lines 44-77 and 215-434)

One iteration of the observe→reason→act→validate loop is a pure
function of the current state and a `StepInput` oracle carrying what
the environment produced during that iteration: the stop-flag answer,
the observed page, the LLM's proposed action (`none` when the LLM
failed), the outcome of the in-loop CAPTCHA handler, and the outcome of
executing the action. The rolling `conversation_history` only feeds the
LLM call, which the oracle replaces, and is not modelled. -/

/-- One entry of the observed `inputs` list (its `type` tag). -/
structure PageInput where
  type : String
deriving DecidableEq, Repr

/-- One entry of the observed `buttons` list (its visible `text`). -/
structure PageButton where
  text : String
deriving DecidableEq, Repr

/-- The parts of `_observe_page`'s result that the loop branches on.
`error_messages` holds the `text` of each visible error element. -/
structure AgentPage where
  inputs : List PageInput
  buttons : List PageButton
  has_success_indicator : Bool
  has_error_messages : Bool
  error_messages : List String
deriving DecidableEq, Repr

/-- The input types counted as form inputs by the early-exit analysis. -/
def form_input_types : List String := ["email", "text", "tel", "select", "checkbox", "radio"]

/-- `has_form_inputs` of the loop's page analysis. -/
def has_form_inputs (p : AgentPage) : Bool :=
  p.inputs.any (fun i => i.type ∈ form_input_types)

/-- The navigation/signup button keywords of the loop's page analysis. -/
def nav_keywords : List String :=
  ["sign up", "signup", "register", "join", "get started", "start now", "learn more",
   "try", "demo", "access", "subscribe", "download", "get", "claim", "free"]

/-- `navigation_buttons` of the loop's page analysis: buttons whose
lowercased text contains one of the keywords. -/
def navigation_buttons (p : AgentPage) : List PageButton :=
  p.buttons.filter (fun b => nav_keywords.any (fun kw => strHas (pyLower b.text) kw))

/-- An executed `AgentAction` as recorded in the history. -/
structure AgentActionRec where
  action_type : String
  selector : Option String
  value : Option String
  reasoning : String
  success : Bool
  error_message : Option String
deriving DecidableEq, Repr

/-- `AgentState.__init__` (lines 44-58): the mutable progress record of
one signup attempt. -/
structure AgentState where
  actions_taken : List AgentActionRec
  fields_filled : List (Option String × Option String)
  current_step : Nat
  max_steps : Nat
  page_transitions : Nat
  captcha_solved : Bool
  complete : Bool
  success : Bool
  exploration_clicks : Nat
  checkboxes_checked : List String
deriving DecidableEq, Repr

/-- A fresh `AgentState`: step counter 1, `max_steps = 30`, no terminal
flags set. -/
def initAgentState : AgentState :=
  { actions_taken := [], fields_filled := [], current_step := 1, max_steps := 30,
    page_transitions := 0, captcha_solved := false, complete := false, success := false,
    exploration_clicks := 0, checkboxes_checked := [] }

/-- Python dict assignment `m[k] = v` on an insertion-ordered map. -/
def dict_set (m : List (Option String × Option String)) (k v : Option String) :
    List (Option String × Option String) :=
  if m.any (fun p => p.1 = k) then m.map (fun p => if p.1 = k then (k, v) else p)
  else m ++ [(k, v)]

/-- `AgentState.add_action`: append to the history and, for a
successful `fill_field`, record the selector→value pair. -/
def add_action (st : AgentState) (a : AgentActionRec) : AgentState :=
  let st1 := { st with actions_taken := st.actions_taken ++ [a] }
  if a.action_type = "fill_field" ∧ a.success then
    { st1 with fields_filled := dict_set st1.fields_filled a.selector a.value }
  else st1

/-- The action the LLM proposes for one step. -/
structure LLMAct where
  action_type : String
  selector : Option String
  value : Option String
  reasoning : String
deriving DecidableEq, Repr

/-- A CAPTCHA bypass control reported by the vision phase. -/
structure BypassInfo where
  text : String
  selector : Option String
deriving DecidableEq, Repr

/-- The environment's answers during one loop iteration. -/
structure StepInput where
  stopRequested : Bool := false
  page : AgentPage
  llmAction : Option LLMAct := none
  captchaSolved : Bool := false
  bypass : Option BypassInfo := none
  bypassClickOk : Bool := false
  actSuccess : Bool := false
  actError : String := ""
deriving Repr

/-- The loop context: the `AgentState` plus the orchestrator's
vision-gating memory (`last_action_type` and the loop-local
`last_action_success`). -/
structure LoopCtx where
  st : AgentState
  lastActionType : Option String
  lastActionSuccess : Bool
deriving Repr

/-- The context `execute_signup` starts its loop with. -/
def initLoopCtx : LoopCtx := { st := initAgentState, lastActionType := none,
                               lastActionSuccess := true }

/-- `_should_use_vision` (lines 136-184); its value only decides
whether a screenshot is spent and does not change the state. -/
def should_use_vision (ctx : LoopCtx) (step : Nat) : Bool :=
  if step = 1 then true
  else if ctx.lastActionType = some "click" ∨ ctx.lastActionType = some "submit"
      ∨ ctx.lastActionType = some "wait" then true
  else if !ctx.lastActionSuccess then true
  else if step % 5 = 0 then true
  else if ctx.lastActionType = some "fill_field" then false
  else true

/-- Python truthiness of the optional selector string. -/
def sel_truthy : Option String → Bool
  | none => false
  | some s => s ≠ ""

/-- Result of one loop iteration: continue with a new context, or leave
the loop (Python `break`, which does not by itself set `complete`). -/
inductive StepRes where
  | cont (ctx : LoopCtx)
  | brk (ctx : LoopCtx)
deriving Repr

/-- The act/validate/track tail of one iteration (steps 3, 4 and 7 of
the loop, lines 331-400): execute the action, record it, update the
vision-gating memory, then apply the `complete`-action exit, the
stuck-selector exit (success decided solely by a visible success
indicator), the error-loop exit, and otherwise advance the step
counter. -/
def act_stage (inp : StepInput) (ctx : LoopCtx) (la : LLMAct) (page : AgentPage) :
    StepRes :=
  let st := ctx.st
  let act : AgentActionRec :=
    { action_type := la.action_type, selector := la.selector, value := la.value,
      reasoning := la.reasoning, success := inp.actSuccess,
      error_message := if inp.actSuccess then none else some inp.actError }
  let st1 := add_action st act
  let ctx1 : LoopCtx := { st := st1, lastActionType := some la.action_type,
                          lastActionSuccess := inp.actSuccess }
  if la.action_type = "complete" then
    .brk { ctx1 with st := { st1 with complete := true, success := true } }
  else
    let stuck :=
      if ¬inp.actSuccess ∧ sel_truthy la.selector then
        decide (3 ≤ st1.actions_taken.countP
          (fun a => a.selector = la.selector ∧ a.success = false))
      else false
    if stuck then
      .brk { ctx1 with
             st := { st1 with complete := true,
                              success := page.has_success_indicator } }
    else
      let errorLoop :=
        if page.has_error_messages then
          let recent6 := takeLast 6 st1.actions_taken
          let clicks := recent6.countP (fun a => a.action_type = "click" ∧ a.success = true)
          let fills := recent6.countP
            (fun a => a.action_type = "fill_field" ∧ a.success = true)
          if 3 ≤ clicks ∧ fills = 0 then
            let error_texts := (page.error_messages.take 2).map (fun e => pyTake e 100)
            !(error_texts.any (fun e => strHas (pyLower e) "captcha"))
          else false
        else false
      if errorLoop then
        .brk { ctx1 with st := { st1 with complete := true, success := false } }
      else
        .cont { ctx1 with st := { st1 with current_step := st1.current_step + 1 } }

/-- The "stuck on CAPTCHA" guard reached when neither solving nor a
bypass click worked (lines 322-329): three CAPTCHA-related waits among
the last three actions abort the attempt; otherwise the proposed action
is executed normally. -/
def captcha_stuck_check (inp : StepInput) (ctx : LoopCtx) (la : LLMAct)
    (page : AgentPage) : StepRes :=
  let st := ctx.st
  let recent := (takeLast 3 st.actions_taken).countP
    (fun a => a.action_type = "wait" ∧ strHas (pyLower a.reasoning) "captcha")
  if 3 ≤ recent then
    .brk { ctx with st := { st with complete := true, success := false } }
  else act_stage inp ctx la page

/-- One full iteration of the reasoning loop (lines 237-400): the stop
check, the observation (vision-gated), the step-15 early exit when
nothing has been filled and the page has neither form inputs nor
navigation-styled buttons, the LLM call, the CAPTCHA short-circuit for
"captcha"-reasoned wait actions, and the act/validate tail. -/
def loop_step (inp : StepInput) (ctx : LoopCtx) : StepRes :=
  let st := ctx.st
  if inp.stopRequested then
    .brk { ctx with st := { st with complete := true, success := false } }
  else
    let _use_vision := should_use_vision ctx st.current_step
    let page := inp.page
    if 15 ≤ st.current_step ∧ st.fields_filled = []
        ∧ has_form_inputs page = false ∧ navigation_buttons page = [] then
      .brk { ctx with st := { st with complete := true, success := false } }
    else
      match inp.llmAction with
      | none => .brk ctx
      | some la =>
        if strHas (pyLower la.reasoning) "captcha" ∧ la.action_type = "wait" then
          if inp.captchaSolved then
            .cont { ctx with st :=
              { add_action st
                  { action_type := la.action_type, selector := la.selector,
                    value := la.value, reasoning := la.reasoning, success := true,
                    error_message := none }
                with current_step := st.current_step + 1 } }
          else
            match inp.bypass with
            | some bp =>
              if inp.bypassClickOk then
                .cont { ctx with st :=
                  { add_action st
                      { action_type := "click", selector := bp.selector, value := none,
                        reasoning := "LLM found bypass button: " ++ bp.text,
                        success := true, error_message := none }
                    with current_step := st.current_step + 1 } }
              else captcha_stuck_check inp ctx la page
            | none => captcha_stuck_check inp ctx la page
        else act_stage inp ctx la page

/-- The `while` loop of `execute_signup`: run while not complete and
the step counter has not passed `max_steps`, consuming one `StepInput`
per iteration (the list supplies as many iterations as the run needs). -/
def run_agent_loop : List StepInput → LoopCtx → LoopCtx
  | [], ctx => ctx
  | inp :: rest, ctx =>
    if ctx.st.complete = false ∧ ctx.st.current_step ≤ ctx.st.max_steps then
      match loop_step inp ctx with
      | .cont c => run_agent_loop rest c
      | .brk c => c
    else ctx

/-- The loop of `execute_signup` resumed from a context, followed by
the max-steps post-processing (lines 402-413): only when the step
counter has passed `max_steps` is a final observation taken and success
decided solely by its success indicator. -/
def execute_signup_from (inps : List StepInput) (ctx : LoopCtx)
    (finalObs : AgentPage) : AgentState :=
  let c := run_agent_loop inps ctx
  if c.st.max_steps < c.st.current_step then
    { c.st with complete := true, success := finalObs.has_success_indicator }
  else c.st

/-- `AIAgentOrchestrator.execute_signup`: the initial stop check (which
returns without entering the loop), then the reasoning loop from a
fresh state and the max-steps post-processing. -/
def execute_signup (stopAtStart : Bool) (inps : List StepInput)
    (finalObs : AgentPage) : AgentState :=
  if stopAtStart then initAgentState
  else execute_signup_from inps initLoopCtx finalObs

/-- C1: at any loop iteration with step index ≥ 15 (and within the
step budget) where no fields have been filled, a stop has not been
requested, and the observed page exposes neither a form-looking input
nor a navigation-styled button, the reasoning loop terminates at that
very step with `complete = true` and `success = false`; the step
counter is not advanced, stays within `max_steps = 30`, and the
max-steps post-processing (which could re-decide success) never runs. -/
theorem agent_early_exit_no_signup_page (ctx : LoopCtx) (inp : StepInput)
    (rest : List StepInput) (finalObs : AgentPage)
    (hc : ctx.st.complete = false)
    (h15 : 15 ≤ ctx.st.current_step)
    (hmaxle : ctx.st.current_step ≤ ctx.st.max_steps)
    (hmax : ctx.st.max_steps = 30)
    (hfields : ctx.st.fields_filled = [])
    (hstop : inp.stopRequested = false)
    (hform : has_form_inputs inp.page = false)
    (hnav : navigation_buttons inp.page = []) :
    (execute_signup_from (inp :: rest) ctx finalObs).complete = true
    ∧ (execute_signup_from (inp :: rest) ctx finalObs).success = false
    ∧ (execute_signup_from (inp :: rest) ctx finalObs).current_step = ctx.st.current_step
    ∧ (execute_signup_from (inp :: rest) ctx finalObs).current_step ≤ 30 := by
  have hbody : loop_step inp ctx
      = .brk { ctx with st := { ctx.st with complete := true, success := false } } := by
    simp [loop_step, hstop, h15, hfields, hform, hnav]
  have hnotlt : ¬(ctx.st.max_steps < ctx.st.current_step) := Nat.not_lt.mpr hmaxle
  have hrun : run_agent_loop (inp :: rest) ctx
      = { ctx with st := { ctx.st with complete := true, success := false } } := by
    rw [run_agent_loop, if_pos ⟨hc, hmaxle⟩, hbody]
  unfold execute_signup_from
  rw [hrun]
  simp only []
  rw [if_neg hnotlt]
  refine ⟨rfl, rfl, rfl, ?_⟩
  show ctx.st.current_step ≤ 30
  omega

/-- The context of a loop iteration at step 15 with nothing filled. -/
def earlyExitCtx : LoopCtx :=
  { st := { initAgentState with current_step := 15 }, lastActionType := none,
    lastActionSuccess := true }

/-- A page with no inputs and no buttons at all. -/
def emptyPage : AgentPage := ⟨[], [], false, false, []⟩

/-- A step input observing the empty page, with no stop request. -/
def earlyExitInput : StepInput := { page := emptyPage }

/-- C1 witness: the early-exit theorem applied at step 15 on the empty
page. -/
theorem agent_early_exit_no_signup_page_witness :
    (earlyExitCtx.st.complete = false ∧ 15 ≤ earlyExitCtx.st.current_step
      ∧ earlyExitCtx.st.current_step ≤ earlyExitCtx.st.max_steps
      ∧ earlyExitCtx.st.max_steps = 30 ∧ earlyExitCtx.st.fields_filled = []
      ∧ earlyExitInput.stopRequested = false
      ∧ has_form_inputs earlyExitInput.page = false
      ∧ navigation_buttons earlyExitInput.page = [])
    ∧ ((execute_signup_from [earlyExitInput] earlyExitCtx emptyPage).complete = true
      ∧ (execute_signup_from [earlyExitInput] earlyExitCtx emptyPage).success = false
      ∧ (execute_signup_from [earlyExitInput] earlyExitCtx emptyPage).current_step
          = earlyExitCtx.st.current_step
      ∧ (execute_signup_from [earlyExitInput] earlyExitCtx emptyPage).current_step ≤ 30) :=
  ⟨⟨by decide, by decide, by decide, by decide, by decide, by decide, by decide,
    by decide⟩,
   agent_early_exit_no_signup_page earlyExitCtx earlyExitInput [] emptyPage
     (by decide) (by decide) (by decide) (by decide) (by decide) (by decide)
     (by decide) (by decide)⟩
